import Mathlib

/-!
Verification of the resource-orchestration core of the aws-ec2 tool
(`main.go`): network topology resolution, DNS record orchestration with
compensating rollback, state persistence, and the teardown sequencer.

The Go code is shallowly embedded: every provider call is recorded as an
event in a trace, provider results and failures are supplied by an
explicit environment, and the mutated `StackConfig` is threaded through
as a value.  Definitions follow the structure of the source functions
(`createDNSRecords`, `deleteNetworkStack`, `deleteStack`, `createStack`,
`validateUserConfig`, `validateDNSConfig`, ...) statement by statement.
-/

/-- `User` mirrors the Go struct `User` (username, github_username). -/
structure User where
  username : String
  githubUsername : String
  deriving DecidableEq

/-- `DNSRecord` mirrors the Go struct `DNSRecord` (name, type, value, ttl). -/
structure DNSRecord where
  name : String
  type : String
  value : String
  ttl : Int
  deriving DecidableEq

/-- `StackConfig` mirrors the Go struct `StackConfig`: the input fields the
user provides, the output fields the program fills in, and the network
ownership bookkeeping used for cleanup. -/
structure StackConfig where
  githubUsername : String := ""
  users : List User := []
  instanceType : String := ""
  os : String := ""
  cloudInitFile : String := ""
  hostname : String := ""
  domain : String := ""
  ttl : Int := 0
  isApexDomain : Bool := false
  cnameAliases : List String := []
  vpcID : String := ""
  subnetID : String := ""
  stackName : String := ""
  stackID : String := ""
  region : String := ""
  amiID : String := ""
  instanceID : String := ""
  publicIP : String := ""
  securityGroup : String := ""
  zoneID : String := ""
  fqdn : String := ""
  sshCommand : String := ""
  dnsRecords : List DNSRecord := []
  createdVPC : Bool := false
  createdSubnet : Bool := false
  internetGatewayID : String := ""
  routeTableID : String := ""
  routeTableAssociation : String := ""
  deriving DecidableEq

/-- Defaults applied by `readConfig` to unset fields
(instance type, TTL, region, OS). -/
def setDefaults (cfg : StackConfig) : StackConfig :=
  let cfg := if cfg.instanceType = "" then { cfg with instanceType := "t3.micro" } else cfg
  let cfg := if cfg.ttl = 0 then { cfg with ttl := 300 } else cfg
  let cfg := if cfg.region = "" then { cfg with region := "us-east-1" } else cfg
  if cfg.os = "" then { cfg with os := "amazon-linux-2023" } else cfg

/-- `isValidLinuxUsername`: non-empty, at most 32 characters, starts with a
lowercase letter, and contains only lowercase letters, digits, underscore
or hyphen. -/
def isValidLinuxUsername (u : String) : Bool :=
  match u.data with
  | [] => false
  | c :: _ =>
    decide (u.length ≤ 32) && ('a' ≤ c && c ≤ 'z') &&
      u.data.all fun ch =>
        ('a' ≤ ch && ch ≤ 'z') || ('0' ≤ ch && ch ≤ '9') || ch = '_' || ch = '-'

/-- The per-user validation loop of `validateUserConfig`: empty username,
empty github_username, duplicate username, then format, in source order. -/
def checkUsers : List String → List User → Except String Unit
  | _, [] => Except.ok ()
  | seen, u :: rest =>
    if u.username = "" then Except.error "username cannot be empty"
    else if u.githubUsername = "" then Except.error "github_username cannot be empty"
    else if seen.contains u.username then Except.error ("duplicate username: " ++ u.username)
    else if ¬ isValidLinuxUsername u.username then
      Except.error ("invalid username format: " ++ u.username)
    else checkUsers (u.username :: seen) rest

/-- `validateUserConfig`: normalizes the legacy `github_username` field into
the `users` array, requires at least one user, and validates each user.
Returns the (possibly normalized) config. -/
def validateUserConfig (cfg : StackConfig) : Except String StackConfig :=
  let cfg :=
    if cfg.users = [] ∧ cfg.githubUsername ≠ "" then
      { cfg with users := [⟨cfg.githubUsername, cfg.githubUsername⟩] }
    else cfg
  if cfg.users = [] then
    Except.error "at least one user required"
  else
    match checkUsers [] cfg.users with
    | Except.error e => Except.error e
    | Except.ok _ => Except.ok cfg

/-- The per-alias validation loop of `validateDNSConfig`: empty alias,
alias equal to the primary hostname, duplicate alias, in source order. -/
def checkAliases (hostname : String) : List String → List String → Except String Unit
  | _, [] => Except.ok ()
  | seen, a :: rest =>
    if a = "" then Except.error "cname_aliases cannot contain empty strings"
    else if a = hostname then
      Except.error ("cname_aliases cannot duplicate primary hostname: " ++ a)
    else if seen.contains a then Except.error ("duplicate cname_alias: " ++ a)
    else checkAliases hostname (a :: seen) rest

/-- `validateDNSConfig`: non-empty aliases require hostname and domain and
must be non-empty, distinct from the hostname, and mutually distinct;
`is_apex_domain` requires a domain. -/
def validateDNSConfig (cfg : StackConfig) : Except String Unit :=
  let first :=
    if cfg.cnameAliases ≠ [] then
      if cfg.hostname = "" ∨ cfg.domain = "" then
        Except.error "cname_aliases requires both hostname and domain"
      else checkAliases cfg.hostname [] cfg.cnameAliases
    else Except.ok ()
  match first with
  | Except.error e => Except.error e
  | Except.ok _ =>
    if cfg.isApexDomain = true ∧ cfg.domain = "" then
      Except.error "is_apex_domain requires domain to be specified"
    else Except.ok ()

/-! ## Route53 record calls -/

/-- Go `strings.HasSuffix(s, ".")`: whether the last character is a dot. -/
def hasDotSuffix (s : String) : Bool := s.data.getLast? = some '.'

/-- Append a trailing dot unless already present, as the record helpers do
before every Route53 call. -/
def withDot (s : String) : String := if hasDotSuffix s then s else s ++ "."

/-- A Route53 `ChangeResourceRecordSets` call: UPSERT or DELETE of an A or
CNAME record (zone, wire name, value, ttl). -/
inductive R53Call where
  | upsertA (zone name ip : String) (ttl : Int)
  | upsertCNAME (zone name target : String) (ttl : Int)
  | delA (zone name ip : String) (ttl : Int)
  | delCNAME (zone name target : String) (ttl : Int)
  deriving DecidableEq

/-- The wire call issued by Go `createARecord` (name gets a trailing dot). -/
def createARecordCall (zone name ip : String) (ttl : Int) : R53Call :=
  R53Call.upsertA zone (withDot name) ip ttl

/-- The wire call issued by Go `createCNAMERecord` (name and target get
trailing dots). -/
def createCNAMERecordCall (zone name target : String) (ttl : Int) : R53Call :=
  R53Call.upsertCNAME zone (withDot name) (withDot target) ttl

/-- The wire call issued by Go `deleteARecord`. -/
def deleteARecordCall (zone name ip : String) (ttl : Int) : R53Call :=
  R53Call.delA zone (withDot name) ip ttl

/-- The wire call issued by Go `deleteCNAMERecord`. -/
def deleteCNAMERecordCall (zone name target : String) (ttl : Int) : R53Call :=
  R53Call.delCNAME zone (withDot name) (withDot target) ttl

/-- The delete call (if any) that the teardown paths issue for one stored
`DNSRecord`: A and CNAME records get a delete, other types are skipped. -/
def deleteRecordAction (zone : String) (r : DNSRecord) : Option R53Call :=
  if r.type = "A" then some (deleteARecordCall zone r.name r.value r.ttl)
  else if r.type = "CNAME" then some (deleteCNAMERecordCall zone r.name r.value r.ttl)
  else none

/-- Go `deleteCreatedRecords`: best-effort delete of every stored record,
in list order, errors ignored. -/
def deleteCreatedRecords (zone : String) (records : List DNSRecord) : List R53Call :=
  records.filterMap (deleteRecordAction zone)

/-- Total variant of `deleteRecordAction` for records whose type is known
to be A or CNAME (every record the program itself stores). -/
def deleteCallFor (zone : String) (r : DNSRecord) : R53Call :=
  if r.type = "CNAME" then deleteCNAMERecordCall zone r.name r.value r.ttl
  else deleteARecordCall zone r.name r.value r.ttl

/-- The upsert call creating a planned record. -/
def upsertCallFor (zone : String) (r : DNSRecord) : R53Call :=
  if r.type = "CNAME" then createCNAMERecordCall zone r.name r.value r.ttl
  else createARecordCall zone r.name r.value r.ttl

/-! ## DNS record orchestrator (`createDNSRecords`) -/

instance {ε α : Type} [DecidableEq ε] [DecidableEq α] : DecidableEq (Except ε α) := fun x y =>
  match x, y with
  | Except.ok a, Except.ok b =>
    if h : a = b then isTrue (by rw [h]) else isFalse (by simp [h])
  | Except.error a, Except.error b =>
    if h : a = b then isTrue (by rw [h]) else isFalse (by simp [h])
  | Except.ok _, Except.error _ => isFalse (by simp)
  | Except.error _, Except.ok _ => isFalse (by simp)

/-- Trace and result of one `createDNSRecords` invocation. -/
structure DNSOutcome where
  calls : List R53Call
  result : Except String (List DNSRecord)
  deriving DecidableEq

/-- The `DNSRecord` stored for one CNAME alias
(`alias.domain → hostname.domain`). -/
def cnameRecordFor (cfg : StackConfig) (a : String) : DNSRecord :=
  ⟨a ++ "." ++ cfg.domain, "CNAME", cfg.hostname ++ "." ++ cfg.domain, cfg.ttl⟩

/-- The CNAME loop of `createDNSRecords`: each alias, in order, gets an
upsert; on the first failure all records created so far in this invocation
are deleted and the error is returned.  The oracle `ok` tells whether the
`n`-th record-creation call of the invocation succeeds. -/
def cnameLoop (ok : Nat → Bool) (cfg : StackConfig) :
    List String → Nat → List DNSRecord → DNSOutcome
  | [], _, created => ⟨[], Except.ok created⟩
  | a :: rest, n, created =>
    let r := cnameRecordFor cfg a
    let call := createCNAMERecordCall cfg.zoneID r.name r.value r.ttl
    if ok n then
      let out := cnameLoop ok cfg rest (n + 1) (created ++ [r])
      ⟨call :: out.calls, out.result⟩
    else
      ⟨call :: deleteCreatedRecords cfg.zoneID created,
       Except.error ("failed to create CNAME " ++ r.name)⟩

/-- Step 3 of `createDNSRecords`: the apex A record (`domain → ip`), with
compensating deletes of everything created so far on failure. -/
def apexStep (ok : Nat → Bool) (cfg : StackConfig) (n : Nat)
    (created : List DNSRecord) : DNSOutcome :=
  if cfg.isApexDomain = true then
    let call := createARecordCall cfg.zoneID cfg.domain cfg.publicIP cfg.ttl
    if ok n then
      ⟨[call], Except.ok (created ++ [⟨cfg.domain, "A", cfg.publicIP, cfg.ttl⟩])⟩
    else
      ⟨call :: deleteCreatedRecords cfg.zoneID created,
       Except.error "failed to create apex A record"⟩
  else ⟨[], Except.ok created⟩

/-- Step 2 of `createDNSRecords` (the CNAME block, entered only when the
hostname and the alias list are non-empty), followed by step 3. -/
def cnameStep (ok : Nat → Bool) (cfg : StackConfig) (n : Nat)
    (created : List DNSRecord) : DNSOutcome :=
  if cfg.hostname ≠ "" ∧ cfg.cnameAliases ≠ [] then
    let out := cnameLoop ok cfg cfg.cnameAliases n created
    match out.result with
    | Except.ok created2 =>
      let out2 := apexStep ok cfg (n + cfg.cnameAliases.length) created2
      ⟨out.calls ++ out2.calls, out2.result⟩
    | Except.error e => ⟨out.calls, Except.error e⟩
  else apexStep ok cfg n created

/-- Go `createDNSRecords`: primary A record, CNAME aliases, apex A record,
in that order; on any failure the records created earlier in the same
invocation are deleted and the error is returned. -/
def createDNSRecords (ok : Nat → Bool) (cfg : StackConfig) : DNSOutcome :=
  if cfg.domain = "" then ⟨[], Except.ok []⟩
  else if cfg.hostname ≠ "" then
    let fqdn := cfg.hostname ++ "." ++ cfg.domain
    let call := createARecordCall cfg.zoneID fqdn cfg.publicIP cfg.ttl
    if ok 0 then
      let out := cnameStep ok cfg 1 [⟨fqdn, "A", cfg.publicIP, cfg.ttl⟩]
      ⟨call :: out.calls, out.result⟩
    else ⟨[call], Except.error "failed to create primary A record"⟩
  else cnameStep ok cfg 0 []

/-- The primary record of the plan (present iff the hostname is set). -/
def planPrimary (cfg : StackConfig) : List DNSRecord :=
  if cfg.hostname ≠ "" then
    [⟨cfg.hostname ++ "." ++ cfg.domain, "A", cfg.publicIP, cfg.ttl⟩]
  else []

/-- The CNAME records of the plan (present iff the hostname is set). -/
def planCnames (cfg : StackConfig) : List DNSRecord :=
  if cfg.hostname ≠ "" then cfg.cnameAliases.map (cnameRecordFor cfg) else []

/-- The apex record of the plan (present iff `is_apex_domain`). -/
def planApex (cfg : StackConfig) : List DNSRecord :=
  if cfg.isApexDomain = true then [⟨cfg.domain, "A", cfg.publicIP, cfg.ttl⟩] else []

/-- The ordered record plan `createDNSRecords` attempts: primary A record,
one CNAME per alias, apex A record. -/
def plan (cfg : StackConfig) : List DNSRecord :=
  if cfg.domain = "" then [] else planPrimary cfg ++ planCnames cfg ++ planApex cfg

/-! ## Teardown: `deleteNetworkStack` and `deleteStack` -/

/-- An EC2 network-teardown call issued by `deleteNetworkStack`. -/
inductive NetAction where
  | disassociateRouteTable (assoc : String)
  | deleteRouteTable (rt : String)
  | deleteSubnet (subnet : String)
  | detachInternetGateway (igw vpc : String)
  | deleteInternetGateway (igw : String)
  | deleteVpc (vpc : String)
  deriving DecidableEq

/-- Go `deleteNetworkStack`: disassociate route table, delete route table,
delete subnet (only if `created_subnet`), detach and delete internet
gateway, delete VPC (only if `created_vpc`); every step is best-effort,
so a failure never removes later calls from the trace. -/
def deleteNetworkStack (cfg : StackConfig) : List NetAction :=
  (if cfg.routeTableAssociation ≠ "" then
     [NetAction.disassociateRouteTable cfg.routeTableAssociation] else [])
  ++ (if cfg.routeTableID ≠ "" then [NetAction.deleteRouteTable cfg.routeTableID] else [])
  ++ (if cfg.createdSubnet = true ∧ cfg.subnetID ≠ "" then
        [NetAction.deleteSubnet cfg.subnetID] else [])
  ++ (if cfg.internetGatewayID ≠ "" ∧ cfg.vpcID ≠ "" then
        [NetAction.detachInternetGateway cfg.internetGatewayID cfg.vpcID,
         NetAction.deleteInternetGateway cfg.internetGatewayID] else [])
  ++ (if cfg.createdVPC = true ∧ cfg.vpcID ≠ "" then [NetAction.deleteVpc cfg.vpcID] else [])

/-- The config rewrite at the end of `deleteStack` (lines 1351-1366):
output and network-resource fields are set to empty. -/
def clearConfig (cfg : StackConfig) : StackConfig :=
  { cfg with
    stackName := "", stackID := "", instanceID := "", publicIP := "",
    securityGroup := "", zoneID := "", fqdn := "", sshCommand := "",
    dnsRecords := [], createdVPC := false, createdSubnet := false,
    vpcID := "", subnetID := "", internetGatewayID := "",
    routeTableID := "", routeTableAssociation := "" }

/-- One observable step of `deleteStack`. -/
inductive DelEvent where
  | r53 (c : R53Call)
  | deleteComputeStack (name : String)
  | awaitDeletion (name : String) (timeoutMinutes : Nat)
  | net (a : NetAction)
  | writeCleared (cfg : StackConfig)
  deriving DecidableEq

/-- The region `deleteStack` uses: the config region when a config was read
and its region is non-empty, otherwise the default `us-east-1`. -/
def deleteRegion (cfgOpt : Option StackConfig) : String :=
  match cfgOpt with
  | none => "us-east-1"
  | some cfg => if cfg.region ≠ "" then cfg.region else "us-east-1"

/-- Go `deleteStack` as a trace.  `cfgOpt` is the result of `readConfig`
(`none` when the config file could not be read).  `deleteOk` and `waitOk`
tell whether the CloudFormation `DeleteStack` call and the 10-minute
delete-complete wait succeed; either failure is fatal (`log.Fatalf`), so
the trace stops there and the returned flag is `false`. -/
def deleteStack (name : String) (cfgOpt : Option StackConfig)
    (deleteOk waitOk : Bool) : List DelEvent × Bool :=
  let dnsPart : List DelEvent :=
    match cfgOpt with
    | some cfg =>
      if cfg.zoneID ≠ "" ∧ cfg.dnsRecords.length > 0 then
        (cfg.dnsRecords.filterMap (deleteRecordAction cfg.zoneID)).map DelEvent.r53
      else []
    | none => []
  let pre := dnsPart ++ [DelEvent.deleteComputeStack name]
  if deleteOk = false then (pre, false)
  else
    let pre2 := pre ++ [DelEvent.awaitDeletion name 10]
    if waitOk = false then (pre2, false)
    else
      let netPart : List DelEvent :=
        match cfgOpt with
        | some cfg =>
          if cfg.createdVPC = true ∨ cfg.createdSubnet = true ∨ cfg.internetGatewayID ≠ "" then
            (deleteNetworkStack cfg).map DelEvent.net
          else []
        | none => []
      let clearPart : List DelEvent :=
        match cfgOpt with
        | some cfg => [DelEvent.writeCleared (clearConfig cfg)]
        | none => []
      (pre2 ++ netPart ++ clearPart, true)

/-! ## Stack creation (`createStack`) -/

/-- A subnet as seen by `discoverSubnet` (id and the
`MapPublicIpOnLaunch` attribute). -/
structure Subnet where
  id : String
  mapPublicIpOnLaunch : Bool
  deriving DecidableEq

/-- Go struct `NetworkStack`: the identifiers produced by
`createNetworkStack`. -/
structure NetworkStack where
  vpcID : String
  subnetID : String
  internetGatewayID : String
  routeTableID : String
  routeTableAssociation : String
  deriving DecidableEq

/-- The external world of one `createStack` run: what discovery queries
return, the identifiers the provider assigns to newly created resources,
the lookup results, the CloudFormation outputs, and the DNS oracle
(whether the `n`-th record-creation call succeeds). -/
structure Env where
  defaultVpcs : List String
  allVpcs : List String
  subnetsOf : String → List Subnet
  nsVpcID : String
  nsIgwID : String
  nsSubnetID : String
  nsRtID : String
  nsAssocID : String
  az : String
  amiID : String
  zoneID : String
  stackID : String
  instanceID : String
  outInstanceType : String
  publicIP : String
  sgID : String
  dnsOk : Nat → Bool

/-- One observable step of `createStack`. -/
inductive Event where
  | describeVpcsDefault
  | describeVpcsAll
  | describeSubnets (vpc : String)
  | createVpc (vpc : String)
  | enableDnsHostnames (vpc : String)
  | createInternetGateway (igw : String)
  | attachInternetGateway (igw vpc : String)
  | describeAZs
  | createSubnet (vpc cidr az : String)
  | modifySubnetAttr (subnet : String)
  | createRouteTable (vpc : String)
  | createRoute (rt cidr igw : String)
  | associateRouteTable (rt subnet : String)
  | lookupAMI (os : String)
  | lookupZone (domain : String)
  | createComputeStack (name vpc subnet ami itype : String)
  | awaitCreate (name : String) (timeoutMinutes : Nat)
  | describeStacks (name : String)
  | r53 (c : R53Call)
  | persist (cfg : StackConfig)
  deriving DecidableEq

/-- Go `discoverVPC`: first query for the default VPC, then for any VPC;
returns the empty string when none exists.  Also returns the queries
issued. -/
def discoverVPC (env : Env) : String × List Event :=
  match env.defaultVpcs with
  | v :: _ => (v, [Event.describeVpcsDefault])
  | [] =>
    match env.allVpcs with
    | [] => ("", [Event.describeVpcsDefault, Event.describeVpcsAll])
    | v :: _ => (v, [Event.describeVpcsDefault, Event.describeVpcsAll])

/-- Go `discoverSubnet`: within the given VPC, prefer a subnet that
auto-assigns public addresses, otherwise the first subnet; empty string
when the VPC has no subnet. -/
def discoverSubnet (env : Env) (vpcID : String) : String × List Event :=
  let ss := env.subnetsOf vpcID
  let chosen :=
    match ss.find? (fun s => s.mapPublicIpOnLaunch) with
    | some s => s.id
    | none =>
      match ss with
      | [] => ""
      | s :: _ => s.id
  (chosen, [Event.describeSubnets vpcID])

/-- Go `createNetworkStack`: create a fresh VPC (10.0.0.0/16), enable DNS
hostnames, create and attach an internet gateway, create a public subnet
(10.0.1.0/24) in the first available availability zone, enable auto-assign
public IP, create a route table with a default route to the gateway, and
associate it with the subnet. -/
def createNetworkStack (env : Env) : NetworkStack × List Event :=
  let vpc := env.nsVpcID
  let igw := env.nsIgwID
  let subnet := env.nsSubnetID
  let rt := env.nsRtID
  (⟨vpc, subnet, igw, rt, env.nsAssocID⟩,
   [Event.createVpc vpc, Event.enableDnsHostnames vpc,
    Event.createInternetGateway igw, Event.attachInternetGateway igw vpc,
    Event.describeAZs, Event.createSubnet vpc "10.0.1.0/24" env.az,
    Event.modifySubnetAttr subnet, Event.createRouteTable vpc,
    Event.createRoute rt "0.0.0.0/0" igw, Event.associateRouteTable rt subnet])

/-- The two network-resolution blocks of `createStack` (lines 1043-1097):
discover or create the VPC, then discover or create the subnet.  The
second block keeps the already-resolved `vpc_id` (its
`if stackCfg.VpcID == ""` guard is reproduced as in the source). -/
def resolveNetworkPhase (env : Env) (cfg : StackConfig) : StackConfig × List Event :=
  let step1 : StackConfig × List Event :=
    if cfg.vpcID = "" then
      let d := discoverVPC env
      if d.1 = "" then
        let c := createNetworkStack env
        ({ cfg with vpcID := c.1.vpcID, subnetID := c.1.subnetID,
                    internetGatewayID := c.1.internetGatewayID,
                    routeTableID := c.1.routeTableID,
                    routeTableAssociation := c.1.routeTableAssociation,
                    createdVPC := true, createdSubnet := true },
         d.2 ++ c.2)
      else ({ cfg with vpcID := d.1 }, d.2)
    else (cfg, [])
  let cfg1 := step1.1
  if cfg1.subnetID = "" then
    let d := discoverSubnet env cfg1.vpcID
    if d.1 = "" then
      let c := createNetworkStack env
      let cfg2 :=
        if cfg1.vpcID = "" then { cfg1 with vpcID := c.1.vpcID, createdVPC := true }
        else cfg1
      ({ cfg2 with subnetID := c.1.subnetID,
                   internetGatewayID := c.1.internetGatewayID,
                   routeTableID := c.1.routeTableID,
                   routeTableAssociation := c.1.routeTableAssociation,
                   createdSubnet := true },
       step1.2 ++ d.2 ++ c.2)
    else ({ cfg1 with subnetID := d.1 }, step1.2 ++ d.2)
  else (cfg1, step1.2)

/-- The DNS block of `createStack` (lines 1236-1254): when a zone was
resolved, record it in the config and create the records; on success store
the record list and the FQDN, on failure only log a warning and leave the
record list of the config untouched. -/
def dnsPhase (env : Env) (zoneID : String) (cfg3 : StackConfig) :
    StackConfig × List Event :=
  if zoneID ≠ "" then
    let cfgZ := { cfg3 with zoneID := zoneID }
    let out := createDNSRecords env.dnsOk cfgZ
    match out.result with
    | Except.ok recs =>
      let cfgR := { cfgZ with dnsRecords := recs }
      let cfgF :=
        if cfgR.hostname ≠ "" then
          { cfgR with fqdn := cfgR.hostname ++ "." ++ cfgR.domain }
        else if cfgR.isApexDomain = true then { cfgR with fqdn := cfgR.domain }
        else cfgR
      (cfgF, out.calls.map Event.r53)
    | Except.error _ => (cfgZ, out.calls.map Event.r53)
  else (cfg3, [])

/-- The body of `createStack` after validation succeeded: network
resolution, AMI lookup, zone lookup, CloudFormation stack creation and
wait, output harvesting, DNS record creation (failures logged as a
warning, not fatal), SSH command, and one final `writeConfig`. -/
def createStackBody (env : Env) (name : String) (cfg : StackConfig) :
    List Event × StackConfig :=
  let net := resolveNetworkPhase env cfg
  let cfg1 := net.1
  let cfg2 := { cfg1 with amiID := env.amiID }
  let evAmi := [Event.lookupAMI cfg1.os]
  let zoneID := if cfg2.domain ≠ "" then env.zoneID else ""
  let evZone := if cfg2.domain ≠ "" then [Event.lookupZone cfg2.domain] else []
  let evCF := [Event.createComputeStack name cfg2.vpcID cfg2.subnetID env.amiID cfg2.instanceType,
               Event.awaitCreate name 10, Event.describeStacks name]
  let cfg3 := { cfg2 with stackName := name, stackID := env.stackID,
                          instanceID := env.instanceID,
                          instanceType := env.outInstanceType,
                          publicIP := env.publicIP,
                          securityGroup := env.sgID }
  let dnsStep := dnsPhase env zoneID cfg3
  let cfg4 := dnsStep.1
  let sshTarget := if cfg4.fqdn ≠ "" then cfg4.fqdn else cfg4.publicIP
  let cfg5 := { cfg4 with
    sshCommand := "ssh " ++ (cfg4.users.headD ⟨"", ""⟩).username ++ "@" ++ sshTarget }
  (net.2 ++ evAmi ++ evZone ++ evCF ++ dnsStep.2 ++ [Event.persist cfg5], cfg5)

/-- Go `createStack`: validate the user and DNS configuration (each failure
is fatal), then run the body.  DNS-record creation failure inside the body
is only a warning, so it never makes the run fail. -/
def createStack (env : Env) (name : String) (cfg : StackConfig) :
    Except String (List Event × StackConfig) :=
  match validateUserConfig cfg with
  | Except.error e => Except.error e
  | Except.ok cfgV =>
    match validateDNSConfig cfgV with
    | Except.error e => Except.error e
    | Except.ok _ => Except.ok (createStackBody env name cfgV)

/-- Whether a `createStack` run completed (validation passed). -/
def runOk (r : Except String (List Event × StackConfig)) : Bool :=
  match r with
  | Except.ok _ => true
  | Except.error _ => false

/-- The event trace of a completed `createStack` run. -/
def runTrace (r : Except String (List Event × StackConfig)) : List Event :=
  match r with
  | Except.ok out => out.1
  | Except.error _ => []

/-- The final config of a completed `createStack` run. -/
def runCfg (r : Except String (List Event × StackConfig)) : StackConfig :=
  match r with
  | Except.ok out => out.2
  | Except.error _ => {}

/-- Whether an event is a `writeConfig` persistence point. -/
def isPersist (e : Event) : Bool :=
  match e with
  | Event.persist _ => true
  | _ => false

/-- Whether an event is the CloudFormation compute-stack submission. -/
def isComputeCall (e : Event) : Bool :=
  match e with
  | Event.createComputeStack _ _ _ _ _ => true
  | _ => false

/-- Whether an event creates a network resource (VPC, gateway, subnet,
route table, route, or association). -/
def isNetworkCreateCall (e : Event) : Bool :=
  match e with
  | Event.createVpc _ => true
  | Event.createInternetGateway _ => true
  | Event.createSubnet _ _ _ => true
  | Event.createRouteTable _ => true
  | Event.createRoute _ _ _ => true
  | Event.associateRouteTable _ _ => true
  | _ => false

/-! ## Spec-modelled part: nested VM/DNS config, DNS-only mode, random
hostname.

The documentation of the repository (`DNS_ONLY_GUIDE.md`,
`IMPLEMENTATION_COMPLETE_DNS.md`, `CHANGELOG_RANDOM_HOSTNAME.md`,
`only-dns.md`) describes a later `main.go` with a nested `vm`/`dns`
configuration, a DNS-only mode driven by `dns.target_ip`, and random
hostname generation.  That Go file is not present under `src/`, so these
definitions are modelled from the spec. -/

/-- Modelled from the spec: the DNS-safe charset (`a-z`, `0-9`) used by
the missing `generateRandomHostname`. -/
def hostnameCharset : List Char := "abcdefghijklmnopqrstuvwxyz0123456789".data

/-- Modelled from the spec: the missing `generateRandomHostname` draws 8
characters from the 36-character charset; the cryptographically secure
source (`crypto/rand`) is abstracted as the `entropy` stream. -/
def generateRandomHostname (entropy : Nat → Nat) : String :=
  String.mk ((List.range 8).map fun i => hostnameCharset.getD (entropy i % 36) 'a')

/-- Whether a character is lowercase-alphanumeric. -/
def isLowerAlnum (ch : Char) : Bool :=
  ('a' ≤ ch && ch ≤ 'z') || ('0' ≤ ch && ch ≤ '9')

/-- Modelled from the spec: the `dns` section of the nested config
(the missing `DNSConfig` Go struct), including `target_ip`. -/
structure DNSConfigM where
  hostname : String
  domain : String
  ttl : Int
  isApexDomain : Bool
  cnameAliases : List String
  targetIP : String
  deriving DecidableEq

/-- Modelled from the spec: the `vm` section of the nested config. -/
structure VMConfigM where
  users : List User
  region : String
  os : String
  instanceType : String
  deriving DecidableEq

/-- Modelled from the spec: the nested top-level config with optional
`vm` and `dns` sections. -/
structure NestedConfig where
  vm : Option VMConfigM
  dns : Option DNSConfigM
  deriving DecidableEq

/-- One observable step of the modelled nested-config create flow. -/
inductive MEvent where
  | generateHostname (h : String)
  | persist
  | networkResolve
  | computeProvision
  | zoneLookup (domain : String)
  | dnsApply (r : DNSRecord)
  deriving DecidableEq

/-- Modelled from the spec: if `dns.hostname` is empty and `dns.domain` is
non-empty, generate a random hostname, write it into the config and
persist immediately, before any network call. -/
def hostnamePhase (entropy : Nat → Nat) (d : DNSConfigM) : DNSConfigM × List MEvent :=
  if d.hostname = "" ∧ d.domain ≠ "" then
    let h := generateRandomHostname entropy
    ({ d with hostname := h }, [MEvent.generateHostname h, MEvent.persist])
  else (d, [])

/-- Modelled from the spec: the ordered record plan of the nested flow
(primary A, CNAME aliases, apex A). -/
def dnsPlanModelled (d : DNSConfigM) (ip : String) : List DNSRecord :=
  (if d.hostname ≠ "" then [⟨d.hostname ++ "." ++ d.domain, "A", ip, d.ttl⟩] else [])
  ++ (if d.hostname ≠ "" then
        d.cnameAliases.map fun a =>
          ⟨a ++ "." ++ d.domain, "CNAME", d.hostname ++ "." ++ d.domain, d.ttl⟩
      else [])
  ++ (if d.isApexDomain = true then [⟨d.domain, "A", ip, d.ttl⟩] else [])

/-- Modelled from the spec: zone resolution followed by application of the
record plan. -/
def dnsApplyPhase (d : DNSConfigM) (ip : String) : List MEvent :=
  MEvent.zoneLookup d.domain :: (dnsPlanModelled d ip).map MEvent.dnsApply

/-- Modelled from the spec: the nested-config create orchestrator
(the missing `createStackNested`).  DNS-only mode (`vm` absent) requires
`dns.target_ip` and issues no compute-provisioning call; state is
persisted after every step. -/
def createStackNested (entropy : Nat → Nat) (vmIP : String) (c : NestedConfig) :
    Except String (List MEvent) :=
  match c.vm, c.dns with
  | none, none => Except.error "config must contain a vm or dns section"
  | some _, none =>
    Except.ok [MEvent.networkResolve, MEvent.persist, MEvent.computeProvision, MEvent.persist]
  | some _, some d =>
    let h := hostnamePhase entropy d
    Except.ok (h.2 ++ [MEvent.networkResolve, MEvent.persist,
                       MEvent.computeProvision, MEvent.persist]
               ++ dnsApplyPhase h.1 vmIP ++ [MEvent.persist])
  | none, some d =>
    if d.targetIP = "" then
      Except.error "dns.target_ip is required when vm section is not present"
    else
      let h := hostnamePhase entropy d
      Except.ok (h.2 ++ dnsApplyPhase h.1 h.1.targetIP ++ [MEvent.persist])

/-- Whether a modelled nested-config run completed. -/
def mOk (r : Except String (List MEvent)) : Bool :=
  match r with
  | Except.ok _ => true
  | Except.error _ => false

/-- The trace of a completed modelled nested-config run. -/
def mTrace (r : Except String (List MEvent)) : List MEvent :=
  match r with
  | Except.ok evs => evs
  | Except.error _ => []

/-! ## Concrete inputs used by witnesses and counterexamples -/

/-- A config whose DNS plan has 4 records: primary `app.example.com`,
CNAMEs `www`/`api`, and the apex. -/
def cfgDNS4 : StackConfig :=
  { hostname := "app", domain := "example.com", ttl := 300,
    isApexDomain := true, cnameAliases := ["www", "api"],
    zoneID := "Z1", publicIP := "203.0.113.10" }

/-- A DNS oracle under which the first two record creations succeed and the
third fails. -/
def okFail3 : Nat → Bool := fun n => decide (n < 2)

/-- A full user config: one user, hostname, domain, aliases, apex. -/
def cfgFull : StackConfig :=
  { users := [⟨"admin", "gherlein"⟩], instanceType := "t3.micro",
    os := "amazon-linux-2023", hostname := "app", domain := "example.com",
    ttl := 300, isApexDomain := true, cnameAliases := ["www", "api"],
    region := "us-east-1" }

/-- An environment with an existing default VPC and a public subnet, all
lookups succeeding, and every DNS call succeeding. -/
def envFull : Env :=
  { defaultVpcs := ["vpc-1"], allVpcs := ["vpc-1"],
    subnetsOf := fun _ => [⟨"subnet-1", true⟩],
    nsVpcID := "vpc-new", nsIgwID := "igw-new", nsSubnetID := "subnet-new",
    nsRtID := "rtb-new", nsAssocID := "rtbassoc-new", az := "us-east-1a",
    amiID := "ami-123", zoneID := "Z1", stackID := "arn-stack-web",
    instanceID := "i-0123", outInstanceType := "t3.micro",
    publicIP := "203.0.113.10", sgID := "sg-123", dnsOk := fun _ => true }

/-- `envFull` with the third DNS record creation failing. -/
def envFail3 : Env := { envFull with dnsOk := okFail3 }

/-- `envFull` with no VPC in the account at all, forcing full network
creation. -/
def envNoVpc : Env := { envFull with defaultVpcs := [], allVpcs := [] }

/-- `envFull` where the resolved VPC contains no subnet. -/
def envNoSubnet : Env := { envFull with subnetsOf := fun _ => [] }

/-- A config supplying a user-owned `vpc_id` and no `subnet_id`. -/
def cfgUserVpc : StackConfig :=
  { users := [⟨"admin", "gherlein"⟩], instanceType := "t3.micro",
    os := "amazon-linux-2023", region := "us-east-1", vpcID := "vpc-user" }

/-- A persisted post-create config, as teardown would read it. -/
def cfgDel : StackConfig :=
  { users := [⟨"admin", "gherlein"⟩], hostname := "app",
    domain := "example.com", ttl := 300, region := "us-east-1",
    stackName := "web", stackID := "arn-stack-web", instanceID := "i-0123",
    publicIP := "203.0.113.10", securityGroup := "sg-123", zoneID := "Z1",
    fqdn := "app.example.com", sshCommand := "ssh admin@app.example.com",
    dnsRecords := [⟨"app.example.com", "A", "203.0.113.10", 300⟩,
                   ⟨"www.example.com", "CNAME", "app.example.com", 300⟩],
    createdVPC := true, createdSubnet := true, vpcID := "vpc-new",
    subnetID := "subnet-new", internetGatewayID := "igw-new",
    routeTableID := "rtb-new", routeTableAssociation := "rtbassoc-new" }

/-- A persisted config whose `vpc_id` and `subnet_id` were supplied by the
user (ownership flags false). -/
def cfgUserNet : StackConfig :=
  { users := [⟨"admin", "gherlein"⟩], region := "us-east-1",
    stackName := "web", instanceID := "i-0123",
    vpcID := "vpc-user123", subnetID := "subnet-user456",
    createdVPC := false, createdSubnet := false }

/-- The identity entropy stream used by modelled-flow witnesses. -/
def entropyId : Nat → Nat := fun i => i

/-- A modelled DNS-only section with an explicit target IP. -/
def dnsOnlySection : DNSConfigM :=
  ⟨"app", "example.com", 300, true, ["www"], "203.0.113.10"⟩

/-- A modelled DNS section with an empty hostname (random-hostname case). -/
def dnsRandomSection : DNSConfigM :=
  ⟨"", "example.com", 300, false, [], "203.0.113.10"⟩

/-- Whether a `createDNSRecords` invocation ended in an error. -/
def dnsFailed (o : DNSOutcome) : Bool :=
  match o.result with
  | Except.error _ => true
  | Except.ok _ => false

/-! ## Helper lemmas about the DNS orchestrator -/

theorem upsertCallFor_cnameRecord (z nm v : String) (t : Int) :
    upsertCallFor z ⟨nm, "CNAME", v, t⟩ = createCNAMERecordCall z nm v t := by
  simp [upsertCallFor]

theorem upsertCallFor_aRecord (z nm v : String) (t : Int) :
    upsertCallFor z ⟨nm, "A", v, t⟩ = createARecordCall z nm v t := by
  simp [upsertCallFor]

theorem deleteCallFor_cnameRecord (z nm v : String) (t : Int) :
    deleteCallFor z ⟨nm, "CNAME", v, t⟩ = deleteCNAMERecordCall z nm v t := by
  simp [deleteCallFor]

theorem deleteCallFor_aRecord (z nm v : String) (t : Int) :
    deleteCallFor z ⟨nm, "A", v, t⟩ = deleteARecordCall z nm v t := by
  simp [deleteCallFor]

theorem cnameLoop_fail (ok : Nat → Bool) (cfg : StackConfig) (l : List String) :
    ∀ (j n : Nat) (created : List DNSRecord), j < l.length →
      (∀ i, i < j → ok (n + i) = true) → ok (n + j) = false →
      ∃ e, cnameLoop ok cfg l n created =
        ⟨((l.take (j+1)).map fun a => upsertCallFor cfg.zoneID (cnameRecordFor cfg a))
          ++ deleteCreatedRecords cfg.zoneID
              (created ++ (l.take j).map (cnameRecordFor cfg)),
         Except.error e⟩ := by
  induction l with
  | nil => intro j n created h; simp at h
  | cons a rest ih =>
    intro j n created hlen hpre hfail
    cases j with
    | zero =>
      have hf : ok n = false := by simpa using hfail
      refine ⟨"failed to create CNAME " ++ (cnameRecordFor cfg a).name, ?_⟩
      simp [cnameLoop, hf, upsertCallFor_cnameRecord, cnameRecordFor]
    | succ j =>
      have h0 : ok n = true := by simpa using hpre 0 (Nat.succ_pos j)
      have hpre' : ∀ i, i < j → ok (n + 1 + i) = true := by
        intro i hi
        have := hpre (i + 1) (by omega)
        rwa [show n + (i + 1) = n + 1 + i by omega] at this
      have hfail' : ok (n + 1 + j) = false := by
        rwa [show n + (j + 1) = n + 1 + j by omega] at hfail
      obtain ⟨e, he⟩ := ih j (n + 1) (created ++ [cnameRecordFor cfg a])
        (by simpa using hlen) hpre' hfail'
      refine ⟨e, ?_⟩
      simp [cnameRecordFor, upsertCallFor_cnameRecord, List.map_take,
            List.append_assoc, List.singleton_append] at he
      simp [cnameLoop, h0, he, upsertCallFor_cnameRecord, cnameRecordFor,
            List.take_succ_cons, List.map_take, List.append_assoc,
            List.singleton_append]

theorem cnameLoop_success (ok : Nat → Bool) (cfg : StackConfig) (l : List String) :
    ∀ (n : Nat) (created : List DNSRecord),
      (∀ i, i < l.length → ok (n + i) = true) →
      cnameLoop ok cfg l n created =
        ⟨l.map fun a => upsertCallFor cfg.zoneID (cnameRecordFor cfg a),
         Except.ok (created ++ l.map (cnameRecordFor cfg))⟩ := by
  induction l with
  | nil => intro n created _; simp [cnameLoop]
  | cons a rest ih =>
    intro n created h
    have h0 : ok n = true := by simpa using h 0 (by simp)
    have h' : ∀ i, i < rest.length → ok (n + 1 + i) = true := by
      intro i hi
      have := h (i + 1) (by simpa using Nat.succ_lt_succ hi)
      rwa [show n + (i + 1) = n + 1 + i by omega] at this
    have he := ih (n + 1) (created ++ [cnameRecordFor cfg a]) h'
    simp [cnameRecordFor, upsertCallFor_cnameRecord, List.append_assoc,
          List.singleton_append] at he
    simp [cnameLoop, h0, he, upsertCallFor_cnameRecord, cnameRecordFor,
          List.append_assoc, List.singleton_append]

theorem createDNSRecords_fail (cfg : StackConfig) (ok : Nat → Bool) (k : Nat)
    (hk : k < (plan cfg).length) (hpre : ∀ i, i < k → ok i = true)
    (hfail : ok k = false) :
    (createDNSRecords ok cfg).calls =
      ((plan cfg).take (k+1)).map (upsertCallFor cfg.zoneID)
        ++ deleteCreatedRecords cfg.zoneID ((plan cfg).take k)
    ∧ ∃ e, (createDNSRecords ok cfg).result = Except.error e := by
  by_cases hdom : cfg.domain = ""
  · simp [plan, hdom] at hk
  · by_cases hhost : cfg.hostname = ""
    · by_cases hapex : cfg.isApexDomain = true
      · have hk0 : k = 0 := by
          simp [plan, hdom, planPrimary, planCnames, planApex, hhost, hapex] at hk
          omega
        subst hk0
        refine ⟨?_, ⟨"failed to create apex A record", ?_⟩⟩
        · simp [createDNSRecords, cnameStep, apexStep, hdom, hhost, hapex, hfail,
                plan, planPrimary, planCnames, planApex, upsertCallFor_aRecord,
                deleteCreatedRecords]
        · simp [createDNSRecords, cnameStep, apexStep, hdom, hhost, hapex, hfail]
      · simp [plan, hdom, planPrimary, planCnames, planApex, hhost, hapex] at hk
    · have hplan : plan cfg =
          (⟨cfg.hostname ++ "." ++ cfg.domain, "A", cfg.publicIP, cfg.ttl⟩ : DNSRecord)
            :: (cfg.cnameAliases.map (cnameRecordFor cfg) ++ planApex cfg) := by
        simp [plan, hdom, planPrimary, planCnames, hhost]
      cases k with
      | zero =>
        refine ⟨?_, ⟨"failed to create primary A record", ?_⟩⟩
        · simp [createDNSRecords, hdom, hhost, hfail, hplan,
                upsertCallFor_aRecord, deleteCreatedRecords]
        · simp [createDNSRecords, hdom, hhost, hfail]
      | succ k =>
        have h0 : ok 0 = true := hpre 0 (Nat.succ_pos k)
        by_cases hA : cfg.cnameAliases = []
        · by_cases hapex : cfg.isApexDomain = true
          · have hk0 : k = 0 := by
              rw [hplan] at hk
              simp [hA, planApex, hapex] at hk
              omega
            subst hk0
            have hfail1 : ok 1 = false := by simpa using hfail
            refine ⟨?_, ⟨"failed to create apex A record", ?_⟩⟩
            · rw [hplan]
              simp [createDNSRecords, cnameStep, apexStep, hdom, hhost, hA, hapex,
                    h0, hfail1, planApex, upsertCallFor_aRecord,
                    deleteCreatedRecords, deleteRecordAction]
            · simp [createDNSRecords, cnameStep, apexStep, hdom, hhost, hA, hapex,
                    h0, hfail1]
          · exfalso
            rw [hplan] at hk
            simp [hA, planApex, hapex] at hk
        · by_cases hklt : k < cfg.cnameAliases.length
          · have hpre' : ∀ i, i < k → ok (1 + i) = true := by
              intro i hi
              have := hpre (i + 1) (by omega)
              rwa [show i + 1 = 1 + i by omega] at this
            have hfail' : ok (1 + k) = false := by
              rwa [show k + 1 = 1 + k by omega] at hfail
            obtain ⟨e, he⟩ := cnameLoop_fail ok cfg cfg.cnameAliases k 1
              [⟨cfg.hostname ++ "." ++ cfg.domain, "A", cfg.publicIP, cfg.ttl⟩]
              hklt hpre' hfail'
            have hle1 : k + 1 ≤ (cfg.cnameAliases.map (cnameRecordFor cfg)).length := by
              simp; omega
            have hle0 : k ≤ (cfg.cnameAliases.map (cnameRecordFor cfg)).length := by
              simp; omega
            refine ⟨?_, ⟨e, ?_⟩⟩
            · rw [hplan]
              simp only [List.take_succ_cons,
                         List.take_append_of_le_length hle1,
                         List.take_append_of_le_length hle0]
              simp [createDNSRecords, cnameStep, hdom, hhost, hA, h0, he,
                    upsertCallFor_aRecord, deleteCreatedRecords, deleteRecordAction,
                    List.map_take, List.append_assoc, List.singleton_append,
                    Function.comp_def]
            · simp [createDNSRecords, cnameStep, hdom, hhost, hA, h0, he]
          · have hlen : (plan cfg).length =
                1 + cfg.cnameAliases.length + (planApex cfg).length := by
              rw [hplan]
              simp [List.length_cons, List.length_append, List.length_map]
              omega
            by_cases hapex : cfg.isApexDomain = true
            · have hkA : k = cfg.cnameAliases.length := by
                rw [hlen] at hk
                simp [planApex, hapex] at hk
                omega
              have hsucc : ∀ i, i < cfg.cnameAliases.length → ok (1 + i) = true := by
                intro i hi
                have := hpre (i + 1) (by omega)
                rwa [show i + 1 = 1 + i by omega] at this
              have hs := cnameLoop_success ok cfg cfg.cnameAliases 1
                [⟨cfg.hostname ++ "." ++ cfg.domain, "A", cfg.publicIP, cfg.ttl⟩] hsucc
              have hfailA : ok (1 + cfg.cnameAliases.length) = false := by
                rw [show 1 + cfg.cnameAliases.length = k + 1 by omega]
                exact hfail
              refine ⟨?_, ⟨"failed to create apex A record", ?_⟩⟩
              · rw [hplan]
                have htake2 : ((⟨cfg.hostname ++ "." ++ cfg.domain, "A", cfg.publicIP,
                      cfg.ttl⟩ : DNSRecord)
                      :: (cfg.cnameAliases.map (cnameRecordFor cfg) ++ planApex cfg)).take
                        (k + 1 + 1) =
                    (⟨cfg.hostname ++ "." ++ cfg.domain, "A", cfg.publicIP,
                      cfg.ttl⟩ : DNSRecord)
                      :: (cfg.cnameAliases.map (cnameRecordFor cfg) ++ planApex cfg) := by
                  rw [show k + 1 + 1 = ((⟨cfg.hostname ++ "." ++ cfg.domain, "A",
                        cfg.publicIP, cfg.ttl⟩ : DNSRecord)
                        :: (cfg.cnameAliases.map (cnameRecordFor cfg)
                            ++ planApex cfg)).length from by
                    simp [planApex, hapex]; omega]
                  exact List.take_length _
                have hle : k ≤ (cfg.cnameAliases.map (cnameRecordFor cfg)).length := by
                  simp; omega
                have htakek : (cfg.cnameAliases.map (cnameRecordFor cfg)).take k =
                    cfg.cnameAliases.map (cnameRecordFor cfg) := by
                  rw [show k = (cfg.cnameAliases.map (cnameRecordFor cfg)).length from by
                    simp; omega]
                  exact List.take_length _
                rw [htake2]
                simp only [List.take_succ_cons, List.take_append_of_le_length hle, htakek]
                simp [createDNSRecords, cnameStep, apexStep, hdom, hhost, hA, hapex,
                      h0, hs, hfailA, planApex,
                      upsertCallFor_aRecord, deleteCreatedRecords, deleteRecordAction,
                      List.append_assoc, List.singleton_append, Function.comp_def]
              · simp [createDNSRecords, cnameStep, apexStep, hdom, hhost, hA, hapex,
                      h0, hs, hfailA]
            · exfalso
              rw [hlen] at hk
              simp [planApex, hapex] at hk
              omega

theorem length_eq_four {α : Type} {l : List α} (h : l.length = 4) :
    ∃ a b c d, l = [a, b, c, d] := by
  rcases l with _ | ⟨a, _ | ⟨b, _ | ⟨c, _ | ⟨d, _ | ⟨e, t⟩⟩⟩⟩⟩ <;> simp_all

theorem planPrimary_type {cfg : StackConfig} {r : DNSRecord}
    (h : r ∈ planPrimary cfg) : r.type = "A" := by
  unfold planPrimary at h
  split_ifs at h
  · rw [List.mem_singleton] at h
    subst h
    rfl
  · simp at h

theorem planCnames_type {cfg : StackConfig} {r : DNSRecord}
    (h : r ∈ planCnames cfg) : r.type = "CNAME" := by
  unfold planCnames at h
  split_ifs at h
  · obtain ⟨a, _, rfl⟩ := List.mem_map.mp h
    rfl
  · simp at h

theorem planApex_type {cfg : StackConfig} {r : DNSRecord}
    (h : r ∈ planApex cfg) : r.type = "A" := by
  unfold planApex at h
  split_ifs at h
  · rw [List.mem_singleton] at h
    subst h
    rfl
  · simp at h

theorem plan_types (cfg : StackConfig) :
    ∀ r ∈ plan cfg, r.type = "A" ∨ r.type = "CNAME" := by
  intro r hr
  unfold plan at hr
  split_ifs at hr
  · simp at hr
  · rcases List.mem_append.mp hr with h | h
    · rcases List.mem_append.mp h with h | h
      · exact Or.inl (planPrimary_type h)
      · exact Or.inr (planCnames_type h)
    · exact Or.inl (planApex_type h)

theorem deleteCreatedRecords_pair (z : String) (p0 p1 : DNSRecord)
    (h0 : p0.type = "A" ∨ p0.type = "CNAME")
    (h1 : p1.type = "A" ∨ p1.type = "CNAME") :
    deleteCreatedRecords z [p0, p1] = [deleteCallFor z p0, deleteCallFor z p1] := by
  rcases h0 with h0 | h0 <;> rcases h1 with h1 | h1 <;>
    simp [deleteCreatedRecords, deleteRecordAction, deleteCallFor, h0, h1]

theorem filterMap_deleteRecordAction (z : String) (l : List DNSRecord)
    (h : ∀ r ∈ l, r.type = "A" ∨ r.type = "CNAME") :
    l.filterMap (deleteRecordAction z) = l.map (deleteCallFor z) := by
  induction l with
  | nil => simp
  | cons r rest ih =>
    have hr := h r (by simp)
    have hrest : ∀ x ∈ rest, x.type = "A" ∨ x.type = "CNAME" := by
      intro x hx; exact h x (by simp [hx])
    rcases hr with h1 | h1 <;>
      simp [deleteRecordAction, deleteCallFor, h1, ih hrest]

theorem deleteNetworkStack_subnet_owned {cfg : StackConfig} {s : String}
    (h : NetAction.deleteSubnet s ∈ deleteNetworkStack cfg) :
    cfg.createdSubnet = true := by
  unfold deleteNetworkStack at h
  split_ifs at h <;> simp_all

theorem deleteNetworkStack_vpc_owned {cfg : StackConfig} {v : String}
    (h : NetAction.deleteVpc v ∈ deleteNetworkStack cfg) :
    cfg.createdVPC = true := by
  unfold deleteNetworkStack at h
  split_ifs at h <;> simp_all

theorem discoverVPC_no_persist (env : Env) :
    ∀ e ∈ (discoverVPC env).2, isPersist e = false := by
  intro e he
  unfold discoverVPC at he
  rcases hdv : env.defaultVpcs with _ | ⟨v, t⟩
  · rw [hdv] at he
    rcases hav : env.allVpcs with _ | ⟨w, u⟩ <;> rw [hav] at he <;>
      simp at he <;> rcases he with rfl | rfl <;> rfl
  · rw [hdv] at he
    simp at he
    subst he
    rfl

theorem discoverSubnet_no_persist (env : Env) (v : String) :
    ∀ e ∈ (discoverSubnet env v).2, isPersist e = false := by
  intro e he
  simp [discoverSubnet] at he
  subst he
  rfl

theorem createNetworkStack_no_persist (env : Env) :
    ∀ e ∈ (createNetworkStack env).2, isPersist e = false := by
  intro e he
  simp [createNetworkStack] at he
  rcases he with rfl | rfl | rfl | rfl | rfl | rfl | rfl | rfl | rfl | rfl <;> rfl

theorem resolveNetworkPhase_no_persist (env : Env) (cfg : StackConfig) :
    ∀ e ∈ (resolveNetworkPhase env cfg).2, isPersist e = false := by
  intro e he
  simp only [resolveNetworkPhase] at he
  all_goals try split at he
  all_goals try split at he
  all_goals try split at he
  all_goals try split at he
  all_goals try split at he
  all_goals dsimp only at he
  all_goals
    first
      | exact absurd he (List.not_mem_nil e)
      | exact discoverVPC_no_persist env e he
      | exact discoverSubnet_no_persist env _ e he
      | exact createNetworkStack_no_persist env e he
      | (rcases List.mem_append.mp he with he | he <;>
         first
           | exact absurd he (List.not_mem_nil e)
           | exact discoverVPC_no_persist env e he
           | exact discoverSubnet_no_persist env _ e he
           | exact createNetworkStack_no_persist env e he
           | (rcases List.mem_append.mp he with he | he <;>
              first
                | exact absurd he (List.not_mem_nil e)
                | exact discoverVPC_no_persist env e he
                | exact discoverSubnet_no_persist env _ e he
                | exact createNetworkStack_no_persist env e he
                | (rcases List.mem_append.mp he with he | he <;>
                   first
                     | exact absurd he (List.not_mem_nil e)
                     | exact discoverVPC_no_persist env e he
                     | exact discoverSubnet_no_persist env _ e he
                     | exact createNetworkStack_no_persist env e he)))

theorem dnsPhase_no_persist (env : Env) (zoneID : String) (cfg : StackConfig) :
    ∀ e ∈ (dnsPhase env zoneID cfg).2, isPersist e = false := by
  intro e he
  simp only [dnsPhase] at he
  all_goals try split at he
  all_goals try split at he
  all_goals try split at he
  all_goals dsimp only at he
  all_goals
    first
      | exact absurd he (List.not_mem_nil e)
      | (obtain ⟨c, _, rfl⟩ := List.mem_map.mp he; rfl)

theorem charset_getD_lowerAlnum :
    ∀ k, k < 36 → isLowerAlnum (hostnameCharset.getD k 'a') = true := by decide

theorem createStackBody_eq (env : Env) (name : String) (cfg : StackConfig) :
    ∃ pre fin, createStackBody env name cfg = (pre ++ [Event.persist fin], fin)
      ∧ ∀ e ∈ pre, isPersist e = false := by
  refine ⟨_, _, rfl, ?_⟩
  intro e he
  rcases List.mem_append.mp he with he | he
  · rcases List.mem_append.mp he with he | he
    · rcases List.mem_append.mp he with he | he
      · rcases List.mem_append.mp he with he | he
        · exact resolveNetworkPhase_no_persist env cfg e he
        · simp at he
          subst he
          rfl
      · split at he <;> simp at he <;> (subst he; rfl)
    · simp at he
      rcases he with rfl | rfl | rfl <;> rfl
  · exact dnsPhase_no_persist env _ _ e he

theorem createStackBody_filter_persist (env : Env) (name : String) (cfg : StackConfig) :
    (createStackBody env name cfg).1.filter isPersist =
      [Event.persist (createStackBody env name cfg).2] := by
  obtain ⟨pre, fin, heq, hpre⟩ := createStackBody_eq env name cfg
  rw [heq]
  dsimp only
  rw [List.filter_append, List.filter_eq_nil_iff.mpr (fun a ha => by simp [hpre a ha])]
  rfl

theorem createStackBody_last_persist (env : Env) (name : String) (cfg : StackConfig) :
    (createStackBody env name cfg).1.getLast? =
      some (Event.persist (createStackBody env name cfg).2) := by
  obtain ⟨pre, fin, heq, hpre⟩ := createStackBody_eq env name cfg
  rw [heq]
  dsimp only
  rw [List.getLast?_concat]

/-! ## Claims -/

/-- C1: During teardown, for every persisted `StackConfig` and every
combination of the ownership flags, a resource whose flag is false is
never passed to its delete call: every `DeleteSubnet` call in the
`deleteStack` trace implies `created_subnet = true`, and every `DeleteVpc`
call implies `created_vpc = true`. -/
theorem c1_ownership_gating (name : String) (cfg : StackConfig)
    (deleteOk waitOk : Bool) :
    ((deleteStack name (some cfg) deleteOk waitOk).1.all fun e =>
      match e with
      | DelEvent.net (NetAction.deleteSubnet _) => cfg.createdSubnet
      | DelEvent.net (NetAction.deleteVpc _) => cfg.createdVPC
      | _ => true) = true := by
  have key : ∀ a : NetAction,
      DelEvent.net a ∈ (deleteStack name (some cfg) deleteOk waitOk).1 →
      a ∈ deleteNetworkStack cfg := by
    intro a ha
    simp only [deleteStack] at ha
    all_goals try split at ha
    all_goals try split at ha
    all_goals try split at ha
    all_goals try split at ha
    all_goals simp at ha
    all_goals try exact ha
  rw [List.all_eq_true]
  intro e he
  cases e with
  | r53 c => rfl
  | deleteComputeStack n => rfl
  | awaitDeletion n t => rfl
  | writeCleared c => rfl
  | net a =>
    cases a with
    | deleteSubnet s => exact deleteNetworkStack_subnet_owned (key _ he)
    | deleteVpc v => exact deleteNetworkStack_vpc_owned (key _ he)
    | disassociateRouteTable x => rfl
    | deleteRouteTable x => rfl
    | detachInternetGateway x y => rfl
    | deleteInternetGateway x => rfl

/-- C5: Teardown phase order.  For every persisted config (zone present,
records of the persisted A/CNAME types), the `deleteStack` trace is:
first one delete per persisted DNS record, with the persisted
name/type/value/ttl; then the compute-stack deletion and its blocking
wait with the fixed 10-minute ceiling; then the network deletions
(in `deleteNetworkStack` order, gated on ownership); then the config
clear.  When the wait exceeds its ceiling the run is fatal: the trace
stops right after the wait and nothing later runs. -/
theorem c5_teardown_order (name : String) (cfg : StackConfig)
    (hz : cfg.zoneID ≠ "")
    (hrec : ∀ r ∈ cfg.dnsRecords, r.type = "A" ∨ r.type = "CNAME") :
    deleteStack name (some cfg) true true =
      ((cfg.dnsRecords.map fun r => DelEvent.r53 (deleteCallFor cfg.zoneID r))
        ++ [DelEvent.deleteComputeStack name, DelEvent.awaitDeletion name 10]
        ++ (if cfg.createdVPC = true ∨ cfg.createdSubnet = true ∨ cfg.internetGatewayID ≠ ""
            then (deleteNetworkStack cfg).map DelEvent.net else [])
        ++ [DelEvent.writeCleared (clearConfig cfg)], true)
    ∧ deleteStack name (some cfg) true false =
      ((cfg.dnsRecords.map fun r => DelEvent.r53 (deleteCallFor cfg.zoneID r))
        ++ [DelEvent.deleteComputeStack name, DelEvent.awaitDeletion name 10], false) := by
  have hdns : cfg.dnsRecords.filterMap (deleteRecordAction cfg.zoneID) =
      cfg.dnsRecords.map (deleteCallFor cfg.zoneID) :=
    filterMap_deleteRecordAction _ _ hrec
  rcases hl : cfg.dnsRecords with _ | ⟨r, rest⟩
  · constructor <;> simp [deleteStack, hz, hl, List.append_assoc]
  · rw [← hl]
    have hlen : cfg.dnsRecords.length > 0 := by rw [hl]; simp
    constructor <;>
      simp [deleteStack, hz, hlen, hdns, List.append_assoc, Function.comp_def]

/-- C10: If the per-stack config cannot be read, teardown still proceeds
with the default region `us-east-1`: the compute-stack deletion is issued
and awaited, DNS deletion, network deletion and the config clear are all
skipped, and the run completes. -/
theorem c10_missing_config (name : String) :
    deleteStack name none true true =
      ([DelEvent.deleteComputeStack name, DelEvent.awaitDeletion name 10], true)
    ∧ deleteRegion none = "us-east-1" := by
  constructor
  · simp [deleteStack]
  · rfl

theorem c5_witness :
    cfgDel.zoneID ≠ ""
    ∧ (deleteStack "web" (some cfgDel) true true =
        ((cfgDel.dnsRecords.map fun r => DelEvent.r53 (deleteCallFor cfgDel.zoneID r))
          ++ [DelEvent.deleteComputeStack "web", DelEvent.awaitDeletion "web" 10]
          ++ (if cfgDel.createdVPC = true ∨ cfgDel.createdSubnet = true
                ∨ cfgDel.internetGatewayID ≠ ""
              then (deleteNetworkStack cfgDel).map DelEvent.net else [])
          ++ [DelEvent.writeCleared (clearConfig cfgDel)], true)
      ∧ deleteStack "web" (some cfgDel) true false =
        ((cfgDel.dnsRecords.map fun r => DelEvent.r53 (deleteCallFor cfgDel.zoneID r))
          ++ [DelEvent.deleteComputeStack "web", DelEvent.awaitDeletion "web" 10],
         false)) :=
  ⟨by decide, c5_teardown_order "web" cfgDel (by decide) (by decide)⟩

/-- C2: For every 4-record DNS plan whose 3rd record-creation call fails
(the first two succeeding), `createDNSRecords` issues exactly the three
upserts for records 1-3 followed by exactly the two compensating deletes
for records 1 and 2 with their recorded name/type/value/ttl, issues no
create or delete call for the unattempted 4th record, and returns the
error. -/
theorem c2_rollback_two_of_four (cfg : StackConfig) (ok : Nat → Bool)
    (h4 : (plan cfg).length = 4) (h0 : ok 0 = true) (h1 : ok 1 = true)
    (h2 : ok 2 = false) :
    (createDNSRecords ok cfg).calls =
      ((plan cfg).take 3).map (upsertCallFor cfg.zoneID)
        ++ ((plan cfg).take 2).map (deleteCallFor cfg.zoneID)
    ∧ dnsFailed (createDNSRecords ok cfg) = true := by
  have hpre : ∀ i, i < 2 → ok i = true := by
    intro i hi
    interval_cases i
    · exact h0
    · exact h1
  obtain ⟨hcalls, e, he⟩ := createDNSRecords_fail cfg ok 2 (by omega) hpre h2
  constructor
  · rw [hcalls]
    simp only [deleteCreatedRecords]
    rw [filterMap_deleteRecordAction _ _
      (fun r hr => plan_types cfg r (List.take_subset _ _ hr))]
  · simp [dnsFailed, he]

theorem c2_witness :
    (plan cfgDNS4).length = 4
    ∧ ((createDNSRecords okFail3 cfgDNS4).calls =
        ((plan cfgDNS4).take 3).map (upsertCallFor cfgDNS4.zoneID)
          ++ ((plan cfgDNS4).take 2).map (deleteCallFor cfgDNS4.zoneID)
      ∧ dnsFailed (createDNSRecords okFail3 cfgDNS4) = true) :=
  ⟨by decide,
   c2_rollback_two_of_four cfgDNS4 okFail3 (by decide) (by decide) (by decide)
     (by decide)⟩

/-- C3 counterexample: with a 4-record plan whose 3rd record creation
fails, the compensating deletes are issued (they appear in the trace),
yet `createStack` still completes: the error is logged as a warning
(line 1242 of `main.go`), the run does not abort, and the final config
simply carries no DNS records.  This refutes the claim that the original
error is propagated as fatal with a non-zero exit. -/
theorem c3_counterexample :
    runOk (createStack envFail3 "web" cfgFull) = true
    ∧ Event.r53 (deleteCallFor "Z1" ⟨"app.example.com", "A", "203.0.113.10", 300⟩) ∈
        runTrace (createStack envFail3 "web" cfgFull)
    ∧ Event.r53 (deleteCallFor "Z1" ⟨"www.example.com", "CNAME", "app.example.com", 300⟩) ∈
        runTrace (createStack envFail3 "web" cfgFull)
    ∧ (runCfg (createStack envFail3 "web" cfgFull)).dnsRecords = [] := by
  refine ⟨?_, ?_, ?_, ?_⟩ <;> decide

/-- C3 (amended): if record-creation step `k` of the plan fails, every
record applied in steps `1..k-1` of the same invocation is deleted as
compensation (best-effort, in order, with the recorded values) and the
error is returned to `createStack` — which logs it as a warning and
continues: a run that passes validation always completes (exit zero),
whatever the DNS oracle does. -/
theorem c3_rollback_then_warning :
    (∀ (cfg : StackConfig) (ok : Nat → Bool) (k : Nat),
      k < (plan cfg).length → (∀ i, i < k → ok i = true) → ok k = false →
      (createDNSRecords ok cfg).calls =
        ((plan cfg).take (k+1)).map (upsertCallFor cfg.zoneID)
          ++ ((plan cfg).take k).map (deleteCallFor cfg.zoneID)
      ∧ dnsFailed (createDNSRecords ok cfg) = true)
    ∧ (∀ (env : Env) (name : String) (cfg cfgV : StackConfig),
      validateUserConfig cfg = Except.ok cfgV →
      validateDNSConfig cfgV = Except.ok () →
      runOk (createStack env name cfg) = true) := by
  constructor
  · intro cfg ok k hk hpre hfail
    obtain ⟨hcalls, e, he⟩ := createDNSRecords_fail cfg ok k hk hpre hfail
    constructor
    · rw [hcalls]
      simp only [deleteCreatedRecords]
      rw [filterMap_deleteRecordAction _ _
        (fun r hr => plan_types cfg r (List.take_subset _ _ hr))]
    · simp [dnsFailed, he]
  · intro env name cfg cfgV hu hd
    simp [createStack, hu, hd, runOk]

theorem c3_witness :
    (((createDNSRecords okFail3 cfgDNS4).calls =
        ((plan cfgDNS4).take 3).map (upsertCallFor cfgDNS4.zoneID)
          ++ ((plan cfgDNS4).take 2).map (deleteCallFor cfgDNS4.zoneID))
      ∧ dnsFailed (createDNSRecords okFail3 cfgDNS4) = true)
    ∧ runOk (createStack envFail3 "web" cfgFull) = true :=
  ⟨c3_rollback_then_warning.1 cfgDNS4 okFail3 2 (by decide) (by decide) (by decide),
   c3_rollback_then_warning.2 envFail3 "web" cfgFull cfgFull (by decide) (by decide)⟩

/-- C4 counterexample: in a run that creates the whole network stack and
then provisions compute, no `writeConfig` happens before the compute
submission — the prefix of the trace up to the compute call contains
network-creation events but zero persists.  This refutes the claim that
the accumulated config is persisted after each step before the next one
begins. -/
theorem c4_counterexample :
    ((runTrace (createStack envNoVpc "web" cfgFull)).takeWhile
        (fun e => !(isComputeCall e))).filter isPersist = []
    ∧ ((runTrace (createStack envNoVpc "web" cfgFull)).takeWhile
        (fun e => !(isComputeCall e))).any isNetworkCreateCall = true
    ∧ (runTrace (createStack envNoVpc "web" cfgFull)).any isComputeCall = true := by
  refine ⟨?_, ?_, ?_⟩ <;> decide

/-- C4 (amended): `createStack` persists the accumulated config exactly
once, at the very end of the run (after network resolution, compute
provisioning and DNS application): in every run that passes validation
the trace contains exactly one `writeConfig`, it is the final event, and
it persists the final accumulated config. -/
theorem c4_single_final_persist (env : Env) (name : String)
    (cfg cfgV : StackConfig)
    (hu : validateUserConfig cfg = Except.ok cfgV)
    (hd : validateDNSConfig cfgV = Except.ok ()) :
    runOk (createStack env name cfg) = true
    ∧ (runTrace (createStack env name cfg)).filter isPersist =
        [Event.persist (runCfg (createStack env name cfg))]
    ∧ (runTrace (createStack env name cfg)).getLast? =
        some (Event.persist (runCfg (createStack env name cfg))) := by
  have hrun : createStack env name cfg = Except.ok (createStackBody env name cfgV) := by
    simp [createStack, hu, hd]
  refine ⟨?_, ?_, ?_⟩ <;> rw [hrun]
  · rfl
  · exact createStackBody_filter_persist env name cfgV
  · exact createStackBody_last_persist env name cfgV

theorem c4_witness :
    runOk (createStack envFull "web" cfgFull) = true
    ∧ (runTrace (createStack envFull "web" cfgFull)).filter isPersist =
        [Event.persist (runCfg (createStack envFull "web" cfgFull))]
    ∧ (runTrace (createStack envFull "web" cfgFull)).getLast? =
        some (Event.persist (runCfg (createStack envFull "web" cfgFull))) :=
  c4_single_final_persist envFull "web" cfgFull cfgFull (by decide) (by decide)

/-- C6: evaluating the config-clearing step of `deleteStack` on a config
whose `vpc_id` and `subnet_id` were supplied by the user (ownership flags
false).  The output fields are cleared as claimed, but the user-supplied
input fields `vpc_id` and `subnet_id` are also wiped to empty — the code
(lines 1362-1363) contradicts the claim (and its own comments labelling
those struct fields as input fields to preserve). -/
theorem c6_clear_wipes_user_inputs :
    cfgUserNet.vpcID = "vpc-user123"
    ∧ cfgUserNet.subnetID = "subnet-user456"
    ∧ cfgUserNet.createdVPC = false
    ∧ cfgUserNet.createdSubnet = false
    ∧ (clearConfig cfgUserNet).vpcID = ""
    ∧ (clearConfig cfgUserNet).subnetID = ""
    ∧ (clearConfig cfgUserNet).stackName = ""
    ∧ (clearConfig cfgUserNet).instanceID = ""
    ∧ (clearConfig cfgUserNet).dnsRecords = []
    ∧ (clearConfig cfgUserNet).createdVPC = false
    ∧ (clearConfig cfgUserNet).createdSubnet = false
    ∧ (clearConfig cfgUserNet).region = cfgUserNet.region
    ∧ (clearConfig cfgUserNet).users = cfgUserNet.users := by decide

/-- C7: evaluating the network-resolution phase on a config supplying a
user-owned `vpc_id` whose VPC contains no subnet.  The code calls
`createNetworkStack`, which creates a brand-new VPC and places the new
subnet (and gateway, route table) inside that new VPC — not inside the
resolved network; the new VPC id is then discarded (the
`if stackCfg.VpcID == ""` guard at line 1084 is dead), so the final
config still holds the user VPC with `created_vpc=false` while
`created_subnet=true` points at a subnet of the leaked VPC. -/
theorem c7_subnet_created_outside_resolved_vpc :
    Event.createVpc "vpc-new" ∈ (resolveNetworkPhase envNoSubnet cfgUserVpc).2
    ∧ Event.createSubnet "vpc-new" "10.0.1.0/24" "us-east-1a" ∈
        (resolveNetworkPhase envNoSubnet cfgUserVpc).2
    ∧ (resolveNetworkPhase envNoSubnet cfgUserVpc).1.vpcID = "vpc-user"
    ∧ (resolveNetworkPhase envNoSubnet cfgUserVpc).1.createdVPC = false
    ∧ (resolveNetworkPhase envNoSubnet cfgUserVpc).1.createdSubnet = true
    ∧ (resolveNetworkPhase envNoSubnet cfgUserVpc).1.subnetID = "subnet-new"
    ∧ "vpc-new" ≠ "vpc-user" := by
  refine ⟨?_, ?_, ?_, ?_, ?_, ?_, ?_⟩ <;> decide

/-- C8 (spec-modelled): for every configuration with only a `dns` section
and a non-empty `target_ip`, a create run issues no compute-provisioning
call and completes successfully, applying only the DNS records. -/
theorem c8_dns_only_no_compute (entropy : Nat → Nat) (vmIP : String)
    (d : DNSConfigM) (ht : d.targetIP ≠ "") :
    mOk (createStackNested entropy vmIP ⟨none, some d⟩) = true
    ∧ MEvent.computeProvision ∉ mTrace (createStackNested entropy vmIP ⟨none, some d⟩) := by
  constructor
  · simp [createStackNested, ht, mOk]
  · intro hmem
    simp only [createStackNested] at hmem
    rw [if_neg ht] at hmem
    simp only [mTrace] at hmem
    unfold hostnamePhase dnsApplyPhase at hmem
    split at hmem <;> simp [List.mem_append, List.mem_map] at hmem

theorem c8_witness :
    dnsOnlySection.targetIP ≠ ""
    ∧ mOk (createStackNested entropyId "" ⟨none, some dnsOnlySection⟩) = true
    ∧ MEvent.computeProvision ∉
        mTrace (createStackNested entropyId "" ⟨none, some dnsOnlySection⟩) :=
  ⟨by decide, (c8_dns_only_no_compute entropyId "" dnsOnlySection (by decide)).1,
   (c8_dns_only_no_compute entropyId "" dnsOnlySection (by decide)).2⟩

/-- C9 (spec-modelled): for every configuration whose `dns.hostname` is
empty and `dns.domain` non-empty, an 8-character hostname drawn from the
lowercase-alphanumeric charset is generated from the entropy stream,
written into the config, and persisted before any network call: the
trace of the run starts with the generate-hostname event immediately followed by the
persist, before any zone lookup, record application or compute call. -/
theorem c9_random_hostname (entropy : Nat → Nat) (vmIP : String)
    (c : NestedConfig) (d : DNSConfigM) (hdns : c.dns = some d)
    (hh : d.hostname = "") (hdm : d.domain ≠ "")
    (ht : c.vm = none → d.targetIP ≠ "") :
    (generateRandomHostname entropy).length = 8
    ∧ (generateRandomHostname entropy).data.all isLowerAlnum = true
    ∧ (mTrace (createStackNested entropy vmIP c)).take 2 =
        [MEvent.generateHostname (generateRandomHostname entropy), MEvent.persist] := by
  have hphase : hostnamePhase entropy d =
      ({ d with hostname := generateRandomHostname entropy },
       [MEvent.generateHostname (generateRandomHostname entropy), MEvent.persist]) := by
    unfold hostnamePhase
    rw [if_pos ⟨hh, hdm⟩]
  refine ⟨?_, ?_, ?_⟩
  · simp [generateRandomHostname]
  · rw [List.all_eq_true]
    intro ch hch
    have : ch ∈ (List.range 8).map
        fun i => hostnameCharset.getD (entropy i % 36) 'a' := hch
    obtain ⟨i, _, rfl⟩ := List.mem_map.mp this
    exact charset_getD_lowerAlnum _ (Nat.mod_lt _ (by norm_num))
  · rcases c with ⟨vm, dns⟩
    cases hdns
    rcases vm with _ | v
    · rw [show createStackNested entropy vmIP ⟨none, some d⟩ =
            Except.ok ((hostnamePhase entropy d).2
              ++ dnsApplyPhase (hostnamePhase entropy d).1
                  (hostnamePhase entropy d).1.targetIP
              ++ [MEvent.persist]) from by
          simp only [createStackNested]
          rw [if_neg (ht rfl)]]
      rw [hphase]
      rfl
    · show (mTrace (createStackNested entropy vmIP ⟨some v, some d⟩)).take 2 = _
      simp only [createStackNested, mTrace]
      rw [hphase]
      rfl

theorem c9_witness :
    dnsRandomSection.hostname = ""
    ∧ dnsRandomSection.domain ≠ ""
    ∧ (generateRandomHostname entropyId).length = 8
    ∧ (generateRandomHostname entropyId).data.all isLowerAlnum = true
    ∧ (mTrace (createStackNested entropyId ""
          ⟨none, some dnsRandomSection⟩)).take 2 =
        [MEvent.generateHostname (generateRandomHostname entropyId), MEvent.persist] := by
  have h := c9_random_hostname entropyId "" ⟨none, some dnsRandomSection⟩
    dnsRandomSection rfl (by decide) (by decide) (fun _ => by decide)
  exact ⟨by decide, by decide, h.1, h.2.1, h.2.2⟩
